import Mathlib

/-!
Shallow embedding of the amandier-dish-dash repository.

Part 1 models the SQL schema migration (src/unnamed/part_000): tables as
lists of row records, the security-definer role predicates, the row-level
security policies as boolean filters, the `handle_new_user` provisioning
trigger, the `ON DELETE CASCADE` foreign keys, and the `updated_at`
triggers.

Part 2 models the presentation layer (src/src/pages/MenuManagement.tsx,
which also contains the Dashboard component): the data-access handlers as
pure functions from the outcomes of their network calls to the list of
calls issued, the toasts emitted, and the resulting server state, plus the
form-payload construction and the dashboard popular-dishes aggregation.
-/

namespace DishDash

/-- `CREATE TYPE public.user_role AS ENUM ('admin', 'staff')`. -/
inductive UserRole
  | admin
  | staff
deriving DecidableEq, Repr

/-- `CREATE TYPE public.order_status AS ENUM (...)`. -/
inductive OrderStatus
  | received
  | in_progress
  | ready
  | delivered
  | cancelled
deriving DecidableEq, Repr

/-- A row of `auth.users` (the external identity store): the fields the
migration reads (`NEW.id`, `NEW.email`, `NEW.raw_user_meta_data ->> 'full_name'`). -/
structure AuthUser where
  id : Nat
  email : String
  full_name : Option String
deriving DecidableEq, Repr

/-- A row of `public.profiles`. -/
structure Profile where
  id : Nat
  email : String
  full_name : Option String
deriving DecidableEq, Repr

/-- A row of `public.user_roles`. -/
structure RoleRow where
  user_id : Nat
  role : UserRole
deriving DecidableEq, Repr

/-- A row of `public.menu_categories`. -/
structure MenuCategory where
  id : Nat
  name : String
  display_order : Int
  is_active : Bool
deriving DecidableEq, Repr

/-- A row of `public.menu_items`; `price DECIMAL(10,2)` is modelled as an
integer number of cents. -/
structure MenuItem where
  id : Nat
  category_id : Option Nat
  name : String
  price : Int
  is_active : Bool
  is_available : Bool
deriving DecidableEq, Repr

/-- A row of `public.orders` (the columns the claims touch). -/
structure Order where
  id : Nat
  total_amount : Int
  status : OrderStatus
deriving DecidableEq, Repr

/-- A row of `public.order_items`; `unit_price DECIMAL(10,2)` as cents. -/
structure OrderItem where
  id : Nat
  order_id : Option Nat
  menu_item_id : Option Nat
  quantity : Int
  unit_price : Int
deriving DecidableEq, Repr

/-- The database state: one list per table, insertion order kept. -/
structure DB where
  auth_users : List AuthUser
  profiles : List Profile
  user_roles : List RoleRow
  menu_categories : List MenuCategory
  menu_items : List MenuItem
  orders : List Order
  order_items : List OrderItem
deriving DecidableEq, Repr

def dbEmpty : DB :=
  { auth_users := [], profiles := [], user_roles := [], menu_categories := [],
    menu_items := [], orders := [], order_items := [] }

/-! ### Role predicates (security definer functions)

A caller is an `Option Nat`: `none` models `auth.uid()` being SQL NULL for
an unauthenticated request, in which case `user_id = _user_id` matches no
row. -/

/-- `public.has_role(_user_id, _role)`: EXISTS a `user_roles` row with
`user_id = _user_id AND role = _role`. -/
def has_role (db : DB) (uid : Option Nat) (r : UserRole) : Bool :=
  db.user_roles.any (fun row => uid == some row.user_id && row.role == r)

/-- `public.is_admin_or_staff(_user_id)`: EXISTS a `user_roles` row with
`user_id = _user_id AND role IN ('admin', 'staff')`. -/
def is_admin_or_staff (db : DB) (uid : Option Nat) : Bool :=
  db.user_roles.any (fun row =>
    uid == some row.user_id && (row.role == UserRole.admin || row.role == UserRole.staff))

/-! ### New-identity provisioning (`handle_new_user`, `on_auth_user_created`) -/

/-- `public.handle_new_user()`: runs AFTER INSERT on `auth.users`, so
`NEW` is already counted by `SELECT COUNT(*) FROM auth.users`. Inserts a
profile row and one role row whose role is `admin` when that count is 1,
`staff` otherwise. -/
def handle_new_user (db : DB) (newUser : AuthUser) : DB :=
  { db with
    profiles := db.profiles ++ [{ id := newUser.id, email := newUser.email,
                                  full_name := newUser.full_name }],
    user_roles := db.user_roles ++
      [{ user_id := newUser.id,
         role := if db.auth_users.length = 1 then UserRole.admin else UserRole.staff }] }

/-- One identity creation: the `auth.users` INSERT followed by the
`on_auth_user_created` AFTER-INSERT trigger firing `handle_new_user`. -/
def createIdentity (db : DB) (u : AuthUser) : DB :=
  handle_new_user { db with auth_users := db.auth_users ++ [u] } u

/-- A sequence of identity creations, in order. -/
def createIdentities (db : DB) (us : List AuthUser) : DB :=
  us.foldl createIdentity db

/-- Specification-side description of the provisioned role rows: the
identity created when `startCount` prior identities exist gets `admin`
exactly when `startCount = 0`, i.e. when it is the first ever. -/
def provisionedRoles (startCount : Nat) (us : List AuthUser) : List RoleRow :=
  match us with
  | [] => []
  | u :: rest =>
      { user_id := u.id,
        role := if startCount = 0 then UserRole.admin else UserRole.staff }
        :: provisionedRoles (startCount + 1) rest

/-! ### Row-level security policies for reads and writes

PostgreSQL policies are permissive: a row is accessible when any policy
for the command passes. Writes whose policy fails affect no rows (UPDATE,
DELETE) or error out (INSERT, modelled as `Except`). -/

/-- `menu_categories` SELECT: "Admin and staff can manage" (FOR ALL) OR
"Public can view active categories" (`is_active = true`). -/
def categorySelectPolicy (db : DB) (uid : Option Nat) (c : MenuCategory) : Bool :=
  is_admin_or_staff db uid || c.is_active

def selectMenuCategories (db : DB) (uid : Option Nat) : List MenuCategory :=
  db.menu_categories.filter (categorySelectPolicy db uid)

/-- `menu_items` SELECT: "Admin and staff can manage" (FOR ALL) OR
"Public can view available items" (`is_active = true AND is_available = true`). -/
def itemSelectPolicy (db : DB) (uid : Option Nat) (it : MenuItem) : Bool :=
  is_admin_or_staff db uid || (it.is_active && it.is_available)

def selectMenuItems (db : DB) (uid : Option Nat) : List MenuItem :=
  db.menu_items.filter (itemSelectPolicy db uid)

/-- `orders` / `order_items`: the only policy is "Admin and staff can
manage" (FOR ALL), so every command is gated by `is_admin_or_staff`. -/
def selectOrders (db : DB) (uid : Option Nat) : List Order :=
  db.orders.filter (fun _ => is_admin_or_staff db uid)

def selectOrderItems (db : DB) (uid : Option Nat) : List OrderItem :=
  db.order_items.filter (fun _ => is_admin_or_staff db uid)

def insertOrder (db : DB) (uid : Option Nat) (o : Order) : Except Unit DB :=
  if is_admin_or_staff db uid then
    Except.ok { db with orders := db.orders ++ [o] }
  else Except.error ()

def insertOrderItem (db : DB) (uid : Option Nat) (oi : OrderItem) : Except Unit DB :=
  if is_admin_or_staff db uid then
    Except.ok { db with order_items := db.order_items ++ [oi] }
  else Except.error ()

def updateOrders (db : DB) (uid : Option Nat) (pred : Order → Bool) (f : Order → Order) : DB :=
  { db with orders := db.orders.map (fun o =>
      if pred o && is_admin_or_staff db uid then f o else o) }

def deleteOrders (db : DB) (uid : Option Nat) (pred : Order → Bool) : DB :=
  { db with orders := db.orders.filter (fun o =>
      !(pred o && is_admin_or_staff db uid)) }

def updateOrderItems (db : DB) (uid : Option Nat) (pred : OrderItem → Bool)
    (f : OrderItem → OrderItem) : DB :=
  { db with order_items := db.order_items.map (fun oi =>
      if pred oi && is_admin_or_staff db uid then f oi else oi) }

def deleteOrderItems (db : DB) (uid : Option Nat) (pred : OrderItem → Bool) : DB :=
  { db with order_items := db.order_items.filter (fun oi =>
      !(pred oi && is_admin_or_staff db uid)) }

/-- `user_roles` SELECT: "Admins can manage all user roles" (FOR ALL,
`has_role(auth.uid(), 'admin')`) OR "Users can view own roles"
(`auth.uid() = user_id`). -/
def userRoleSelectPolicy (db : DB) (uid : Option Nat) (r : RoleRow) : Bool :=
  has_role db uid UserRole.admin || uid == some r.user_id

def selectUserRoles (db : DB) (uid : Option Nat) : List RoleRow :=
  db.user_roles.filter (userRoleSelectPolicy db uid)

/-- `user_roles` writes: only the admin FOR ALL policy applies. -/
def insertUserRole (db : DB) (uid : Option Nat) (row : RoleRow) : Except Unit DB :=
  if has_role db uid UserRole.admin then
    Except.ok { db with user_roles := db.user_roles ++ [row] }
  else Except.error ()

def updateUserRoles (db : DB) (uid : Option Nat) (pred : RoleRow → Bool)
    (f : RoleRow → RoleRow) : DB :=
  { db with user_roles := db.user_roles.map (fun r =>
      if pred r && has_role db uid UserRole.admin then f r else r) }

def deleteUserRoles (db : DB) (uid : Option Nat) (pred : RoleRow → Bool) : DB :=
  { db with user_roles := db.user_roles.filter (fun r =>
      !(pred r && has_role db uid UserRole.admin)) }

/-! ### Menu price updates (for the unit-price frame property) -/

/-- An UPDATE of `menu_items.price` for the item with the given id. -/
def updateMenuItemPrice (db : DB) (itemId : Nat) (newPrice : Int) : DB :=
  { db with menu_items := db.menu_items.map (fun it =>
      if it.id == itemId then { it with price := newPrice } else it) }

/-- A sequence of price updates applied in order. -/
def applyPriceUpdates (db : DB) (ups : List (Nat × Int)) : DB :=
  ups.foldl (fun d u => updateMenuItemPrice d u.1 u.2) db

/-! ### Cascading deletes

Foreign keys with ON DELETE CASCADE in the migration:
`menu_items.category_id → menu_categories.id`,
`order_items.order_id → orders.id`, and
`order_items.menu_item_id → menu_items.id`.
Deleting a category therefore removes its menu items and, through the
third key, the order items that reference those menu items. -/

/-- `DELETE FROM menu_categories WHERE id = cid` with its cascades. -/
def deleteMenuCategory (db : DB) (cid : Nat) : DB :=
  { db with
    menu_categories := db.menu_categories.filter (fun c => !(c.id == cid)),
    menu_items := db.menu_items.filter (fun it => !(it.category_id == some cid)),
    order_items := db.order_items.filter (fun oi =>
      !(db.menu_items.any (fun it =>
          it.category_id == some cid && oi.menu_item_id == some it.id))) }

/-- `DELETE FROM orders WHERE id = oid` with its cascade. -/
def deleteOrderRow (db : DB) (oid : Nat) : DB :=
  { db with
    orders := db.orders.filter (fun o => !(o.id == oid)),
    order_items := db.order_items.filter (fun oi => !(oi.order_id == some oid)) }

/-! ### `updated_at` triggers -/

/-- The tables of the migration. -/
inductive TableName
  | profiles
  | user_roles
  | menu_categories
  | menu_items
  | orders
  | order_items
deriving DecidableEq, Repr

/-- Which CREATE TABLE statements declare an `updated_at` column. -/
def hasUpdatedAtColumn : TableName → Bool
  | TableName.profiles => true
  | TableName.user_roles => false
  | TableName.menu_categories => true
  | TableName.menu_items => true
  | TableName.orders => true
  | TableName.order_items => false

/-- Which tables get a `BEFORE UPDATE ... EXECUTE FUNCTION
public.update_updated_at_column()` trigger. -/
def hasUpdatedAtTrigger : TableName → Bool
  | TableName.profiles => true
  | TableName.user_roles => false
  | TableName.menu_categories => true
  | TableName.menu_items => true
  | TableName.orders => true
  | TableName.order_items => false

/-- A row of a table carrying an `updated_at` column: the payload is the
rest of the row. -/
structure TimedRow (α : Type) where
  payload : α
  updated_at : Nat
deriving DecidableEq, Repr

/-- `public.update_updated_at_column()`: `NEW.updated_at = NOW()`. -/
def update_updated_at_column {α : Type} (now : Nat) (row : TimedRow α) : TimedRow α :=
  { row with updated_at := now }

/-- An UPDATE of the payload seen through the BEFORE UPDATE trigger. -/
def updateRowWithTrigger {α : Type} (now : Nat) (f : α → α) (row : TimedRow α) : TimedRow α :=
  update_updated_at_column now { row with payload := f row.payload }

/-! ## Presentation layer (MenuManagement.tsx, Dashboard component)

Each handler is modelled as a pure function of the outcomes its network
calls would have (`Option String` = error message, `none` = success),
returning the list of calls it issues, the toasts it shows, and the
resulting server-side menu table. -/

/-- The `formData` state of MenuManagement, all text fields as entered. -/
structure FormData where
  name : String
  description : String
  price : String
  image_url : String
  category_id : String
  is_active : Bool
  is_available : Bool
  allergens : String
deriving DecidableEq, Repr

/-- The `itemData` payload built in `handleSubmit`. `parseFloat` is
applied to `price` in the source; the unparsed text is carried here since
no claim concerns the numeric value. -/
structure ItemPayload where
  name : String
  description : String
  price_input : String
  image_url : Option String
  category_id : Option String
  is_active : Bool
  is_available : Bool
  allergens : Option (List String)
deriving DecidableEq, Repr

/-- JavaScript `s || null` on a string: the empty string is the only
falsy string. -/
def jsOrNull (s : String) : Option String :=
  if s = "" then none else some s

/-- The whitespace characters JavaScript `trim()` strips (the ones that
can occur in a form text field). -/
def isWhitespaceChar (c : Char) : Bool :=
  c = ' ' || c = '\t' || c = '\n' || c = '\r'

def trimLeading : List Char → List Char
  | [] => []
  | c :: rest => if isWhitespaceChar c then trimLeading rest else c :: rest

/-- JavaScript `s.trim()`: strip whitespace from both ends. -/
def jsTrim (s : String) : String :=
  String.mk (trimLeading (trimLeading s.data.reverse).reverse)

def splitCommaChars : List Char → List (List Char)
  | [] => [[]]
  | c :: rest =>
      if c = ',' then [] :: splitCommaChars rest
      else match splitCommaChars rest with
        | [] => [[c]]
        | g :: gs => (c :: g) :: gs

/-- JavaScript `s.split(',')`. -/
def jsSplitComma (s : String) : List String :=
  (splitCommaChars s.data).map (fun cs => String.mk cs)

/-- The `itemData` object literal of `handleSubmit`:
`image_url: formData.image_url || null`,
`category_id: formData.category_id || null`,
`allergens: formData.allergens ? formData.allergens.split(',').map(a => a.trim()) : null`. -/
def buildItemData (fd : FormData) : ItemPayload :=
  { name := fd.name,
    description := fd.description,
    price_input := fd.price,
    image_url := jsOrNull fd.image_url,
    category_id := jsOrNull fd.category_id,
    is_active := fd.is_active,
    is_available := fd.is_available,
    allergens := if fd.allergens = "" then none
                 else some ((jsSplitComma fd.allergens).map jsTrim) }

/-- The payload sent by the update branch of `handleSubmit`. -/
def updateBranchPayload (fd : FormData) : ItemPayload := buildItemData fd

/-- The payload sent by the insert branch of `handleSubmit`. -/
def insertBranchPayload (fd : FormData) : ItemPayload := buildItemData fd

/-- A toast notification; `variant: "destructive"` toasts are errors. -/
inductive Toast
  | success (msg : String)
  | error (msg : String)
deriving DecidableEq, Repr

def Toast.isError : Toast → Bool
  | Toast.success _ => false
  | Toast.error _ => true

def errorToastCount (ts : List Toast) : Nat :=
  (ts.filter Toast.isError).length

/-- The distinct network calls the MenuManagement handlers issue. -/
inductive DataCall
  | selectMenuItemsJoined
  | selectMenuCategoriesAll
  | insertMenuItem
  | updateMenuItem
  | deleteMenuItemCall
deriving DecidableEq, Repr

/-- The remote `menu_items` table as the handlers affect it: id paired
with the last written payload. -/
structure ServerState where
  items : List (Nat × ItemPayload)
deriving DecidableEq, Repr

def applyInsert (s : ServerState) (newId : Nat) (p : ItemPayload) : ServerState :=
  { items := s.items ++ [(newId, p)] }

def applyUpdate (s : ServerState) (id : Nat) (p : ItemPayload) : ServerState :=
  { items := s.items.map (fun r => if r.1 == id then (r.1, p) else r) }

def applyDelete (s : ServerState) (id : Nat) : ServerState :=
  { items := s.items.filter (fun r => !(r.1 == id)) }

def applyToggleAvailability (s : ServerState) (id : Nat) (newVal : Bool) : ServerState :=
  { items := s.items.map (fun r =>
      if r.1 == id then (r.1, { r.2 with is_available := newVal }) else r) }

/-- What a handler run produced: the calls issued in order, the toasts
shown in order, and the server state afterwards. -/
structure HandlerResult where
  calls : List DataCall
  toasts : List Toast
  server : ServerState
deriving DecidableEq, Repr

/-- `fetchMenuData`: both selects are issued together via `Promise.all`;
if either response carries an error the catch shows one destructive toast
with a fixed message. Reads do not change the server. -/
def fetchMenuData (itemsErr catsErr : Option String) (s : ServerState) : HandlerResult :=
  { calls := [DataCall.selectMenuItemsJoined, DataCall.selectMenuCategoriesAll],
    toasts := if itemsErr.isSome || catsErr.isSome
              then [Toast.error "Failed to fetch menu data"] else [],
    server := s }

/-- `handleSubmit`: builds `itemData`, issues one update (when editing)
or one insert, and only on success shows a success toast and refetches.
On mutation failure the catch shows one destructive toast with the
error's message and nothing else runs. -/
def handleSubmit (fd : FormData) (editingItem : Option Nat) (newId : Nat)
    (mutErr itemsErr catsErr : Option String) (s : ServerState) : HandlerResult :=
  let itemData := buildItemData fd
  let mutCall := match editingItem with
    | some _ => DataCall.updateMenuItem
    | none => DataCall.insertMenuItem
  match mutErr with
  | some e => { calls := [mutCall], toasts := [Toast.error e], server := s }
  | none =>
      let applied := match editingItem with
        | some id => applyUpdate s id itemData
        | none => applyInsert s newId itemData
      let okMsg := match editingItem with
        | some _ => "Menu item updated successfully"
        | none => "Menu item added successfully"
      let fr := fetchMenuData itemsErr catsErr applied
      { calls := mutCall :: fr.calls,
        toasts := Toast.success okMsg :: fr.toasts,
        server := fr.server }

/-- `handleDelete`: after the confirm dialog, one delete call; on failure
one destructive toast with a fixed message, on success a success toast and
a refetch. -/
def handleDelete (confirmed : Bool) (id : Nat)
    (delErr itemsErr catsErr : Option String) (s : ServerState) : HandlerResult :=
  if confirmed then
    match delErr with
    | some _ =>
        { calls := [DataCall.deleteMenuItemCall],
          toasts := [Toast.error "Failed to delete menu item"], server := s }
    | none =>
        let fr := fetchMenuData itemsErr catsErr (applyDelete s id)
        { calls := DataCall.deleteMenuItemCall :: fr.calls,
          toasts := Toast.success "Menu item deleted successfully" :: fr.toasts,
          server := fr.server }
  else { calls := [], toasts := [], server := s }

/-- `toggleAvailability`: one update call setting `is_available` to the
negation of the snapshot the click handler captured; on failure one
destructive toast with a fixed message, on success a success toast and a
refetch. -/
def toggleAvailability (itemId : Nat) (itemName : String) (itemAvailable : Bool)
    (updErr itemsErr catsErr : Option String) (s : ServerState) : HandlerResult :=
  match updErr with
  | some _ =>
      { calls := [DataCall.updateMenuItem],
        toasts := [Toast.error "Failed to update item availability"], server := s }
  | none =>
      let fr := fetchMenuData itemsErr catsErr
        (applyToggleAvailability s itemId (!itemAvailable))
      { calls := DataCall.updateMenuItem :: fr.calls,
        toasts := Toast.success
          (itemName ++ " " ++ (if itemAvailable then "disabled" else "enabled")) :: fr.toasts,
        server := fr.server }

/-! ### Dashboard popular-dishes aggregation (`fetchDashboardStats`) -/

/-- A row of the `order_items` select with its joined
`menu_items(name)`: `none` when the join yields no name. -/
structure TodayOrderItem where
  menu_item_name : Option String
  quantity : Int
deriving DecidableEq, Repr

/-- One step of building `dishCounts`:
`dishCounts[dishName] = (dishCounts[dishName] || 0) + item.quantity`.
A JS object holds at most one entry per key; an assignment to an
existing key keeps its position while a new key is appended, which is
the order `Object.entries` later enumerates. -/
def bump : List (String × Int) → String → Int → List (String × Int)
  | [], n, q => [(n, q)]
  | p :: rest, n, q =>
      if p.1 == n then (p.1, p.2 + q) :: rest
      else p :: bump rest n q

/-- The `forEach` body: items whose join gave no `dishName` are skipped. -/
def dishStep (acc : List (String × Int)) (it : TodayOrderItem) : List (String × Int) :=
  match it.menu_item_name with
  | none => acc
  | some n => bump acc n it.quantity

/-- The `dishCounts` record, as an insertion-ordered association list. -/
def dishCounts (items : List TodayOrderItem) : List (String × Int) :=
  items.foldl dishStep []

/-- The comparator `([,a],[,b]) => b - a`: descending by count. -/
def countGE (a b : String × Int) : Prop := b.2 ≤ a.2

instance countGE_decidable : DecidableRel countGE :=
  fun a b => inferInstanceAs (Decidable (b.2 ≤ a.2))

instance countGE_total : IsTotal (String × Int) countGE :=
  ⟨fun a b => Int.le_total b.2 a.2⟩

instance countGE_trans : IsTrans (String × Int) countGE :=
  ⟨fun _ _ _ hab hbc => le_trans hbc hab⟩

/-- `Object.entries(dishCounts).sort(([,a],[,b]) => b - a).slice(0, 5)`. -/
def popularDishes (items : List TodayOrderItem) : List (String × Int) :=
  (List.insertionSort countGE (dishCounts items)).take 5

/-- Whether some line item references a dish with this name. -/
def hasName (items : List TodayOrderItem) (n : String) : Bool :=
  items.any (fun it => it.menu_item_name == some n)

/-- The total quantity the aggregation should credit to a name. -/
def totalFor (items : List TodayOrderItem) (n : String) : Int :=
  ((items.filter (fun it => it.menu_item_name == some n)).map
    (fun it => it.quantity)).sum

/-- Lookup in the association list, as `dishCounts[dishName]` does. -/
def lookupCount (acc : List (String × Int)) (n : String) : Option Int :=
  (acc.find? (fun p => p.1 == n)).map Prod.snd

/-- The keys of the accumulator are pairwise distinct. -/
def keysNodup (acc : List (String × Int)) : Prop :=
  (acc.map Prod.fst).Nodup

/-! ## Proofs -/

/-! ### C1: first identity is admin, all later ones staff -/

lemma createIdentity_auth_users (db : DB) (u : AuthUser) :
    (createIdentity db u).auth_users = db.auth_users ++ [u] := rfl

lemma createIdentity_user_roles (db : DB) (u : AuthUser) :
    (createIdentity db u).user_roles = db.user_roles ++
      [{ user_id := u.id,
         role := if db.auth_users.length = 0 then UserRole.admin else UserRole.staff }] := by
  show db.user_roles ++
      [{ user_id := u.id,
         role := if (db.auth_users ++ [u]).length = 1 then UserRole.admin else UserRole.staff }] = _
  have h : ((db.auth_users ++ [u]).length = 1) = (db.auth_users.length = 0) := by
    simp
  simp only [h]

lemma createIdentities_user_roles (us : List AuthUser) : ∀ db : DB,
    (createIdentities db us).user_roles =
      db.user_roles ++ provisionedRoles db.auth_users.length us := by
  induction us with
  | nil => intro db; simp [createIdentities, provisionedRoles]
  | cons u rest ih =>
      intro db
      have hstep : createIdentities db (u :: rest) =
          createIdentities (createIdentity db u) rest := rfl
      rw [hstep, ih (createIdentity db u), createIdentity_user_roles,
        createIdentity_auth_users]
      simp [provisionedRoles]

lemma provisionedRoles_length (us : List AuthUser) : ∀ n : Nat,
    (provisionedRoles n us).length = us.length := by
  induction us with
  | nil => intro n; rfl
  | cons u rest ih => intro n; simp [provisionedRoles, ih]

lemma provisionedRoles_get (us : List AuthUser) : ∀ (n : Nat) (i : Nat)
    (h : i < (provisionedRoles n us).length) (hu : i < us.length),
    (provisionedRoles n us).get ⟨i, h⟩ =
      { user_id := (us.get ⟨i, hu⟩).id,
        role := if n + i = 0 then UserRole.admin else UserRole.staff } := by
  induction us with
  | nil => intro n i h hu; exact absurd hu (Nat.not_lt_zero i)
  | cons u rest ih =>
      intro n i h hu
      cases i with
      | zero => simp [provisionedRoles]
      | succ j =>
          have h2 : j < (provisionedRoles (n + 1) rest).length := by
            have := h
            simpa [provisionedRoles] using this
          have hu2 : j < rest.length := Nat.lt_of_succ_lt_succ hu
          have := ih (n + 1) j h2 hu2
          simp only [provisionedRoles, List.get_cons_succ, List.get] at this ⊢
          rw [this]
          have h1 : n + 1 + j ≠ 0 := by omega
          have h2 : n + (j + 1) ≠ 0 := by omega
          simp [h1, h2]

lemma provisionedRoles_user_id_mem (us : List AuthUser) : ∀ (n : Nat) (r : RoleRow),
    r ∈ provisionedRoles n us → r.user_id ∈ us.map AuthUser.id := by
  induction us with
  | nil => intro n r hr; simp [provisionedRoles] at hr
  | cons u rest ih =>
      intro n r hr
      simp only [provisionedRoles, List.mem_cons] at hr
      rcases hr with hr | hr
      · subst hr; simp
      · simp only [List.map_cons, List.mem_cons]
        exact Or.inr (ih (n + 1) r hr)

lemma provisionedRoles_staff_of_pos (us : List AuthUser) : ∀ (n : Nat), n ≠ 0 →
    ∀ r ∈ provisionedRoles n us, r.role = UserRole.staff := by
  induction us with
  | nil => intro n _ r hr; simp [provisionedRoles] at hr
  | cons u rest ih =>
      intro n hn r hr
      simp only [provisionedRoles, List.mem_cons] at hr
      rcases hr with hr | hr
      · subst hr; simp [hn]
      · exact ih (n + 1) (Nat.succ_ne_zero n) r hr

/-- C1: for every sequence of identity creations starting from the empty
system, the provisioning trigger produces exactly one role row per
creation; the i-th created identity's row carries role `admin` iff
`i = 0` (and `staff` iff `i ≠ 0`); and when the created identities are
distinct, no identity ends up with both an `admin` and a `staff` row. -/
theorem provisioning_first_admin_rest_staff (us : List AuthUser) :
    (createIdentities dbEmpty us).user_roles = provisionedRoles 0 us ∧
    (createIdentities dbEmpty us).user_roles.length = us.length ∧
    (∀ (i : Nat) (h : i < (provisionedRoles 0 us).length),
      (((provisionedRoles 0 us).get ⟨i, h⟩).role = UserRole.admin ↔ i = 0) ∧
      (((provisionedRoles 0 us).get ⟨i, h⟩).role = UserRole.staff ↔ i ≠ 0)) ∧
    ((us.map AuthUser.id).Nodup → ∀ uid : Nat,
      ¬({ user_id := uid, role := UserRole.admin } ∈ (createIdentities dbEmpty us).user_roles ∧
        { user_id := uid, role := UserRole.staff } ∈ (createIdentities dbEmpty us).user_roles)) := by
  have hroles : (createIdentities dbEmpty us).user_roles = provisionedRoles 0 us := by
    have := createIdentities_user_roles us dbEmpty
    simpa [dbEmpty] using this
  refine ⟨hroles, ?_, ?_, ?_⟩
  · rw [hroles, provisionedRoles_length]
  · intro i h
    have hu : i < us.length := by rwa [provisionedRoles_length] at h
    rw [provisionedRoles_get us 0 i h hu]
    cases i with
    | zero => simp
    | succ j => simp
  · intro hnodup uid hboth
    rw [hroles] at hboth
    obtain ⟨hadmin, hstaff⟩ := hboth
    cases us with
    | nil => simp [provisionedRoles] at hadmin
    | cons u rest =>
        simp only [provisionedRoles, List.mem_cons] at hadmin hstaff
        rcases hadmin with hadmin | hadmin
        · have huid : uid = u.id := by
            have := congrArg RoleRow.user_id hadmin
            simpa using this
          rcases hstaff with hstaff | hstaff
          · have hcontr := congrArg RoleRow.role hstaff
            simp at hcontr
          · have hmem : uid ∈ rest.map AuthUser.id :=
              provisionedRoles_user_id_mem rest 1
                { user_id := uid, role := UserRole.staff } hstaff
            rw [List.map_cons, List.nodup_cons] at hnodup
            exact hnodup.1 (huid ▸ hmem)
        · have : UserRole.admin = UserRole.staff :=
            provisionedRoles_staff_of_pos rest 1 (by decide)
              { user_id := uid, role := UserRole.admin } hadmin
          exact absurd this (by decide)

/-- C1 witness: two concrete creations; the first row is admin, the
second staff, and the iff and distinctness parts are discharged at the
concrete input. -/
theorem provisioning_first_admin_rest_staff_witness :
    (createIdentities dbEmpty
        [{ id := 7, email := "a@x", full_name := none },
         { id := 8, email := "b@x", full_name := none }]).user_roles =
      [{ user_id := 7, role := UserRole.admin },
       { user_id := 8, role := UserRole.staff }] ∧
    ¬({ user_id := 7, role := UserRole.admin } ∈ (createIdentities dbEmpty
        [{ id := 7, email := "a@x", full_name := none },
         { id := 8, email := "b@x", full_name := none }]).user_roles ∧
      { user_id := 7, role := UserRole.staff } ∈ (createIdentities dbEmpty
        [{ id := 7, email := "a@x", full_name := none },
         { id := 8, email := "b@x", full_name := none }]).user_roles) := by
  constructor
  · rw [(provisioning_first_admin_rest_staff
      [{ id := 7, email := "a@x", full_name := none },
       { id := 8, email := "b@x", full_name := none }]).1]
    rfl
  · exact (provisioning_first_admin_rest_staff
      [{ id := 7, email := "a@x", full_name := none },
       { id := 8, email := "b@x", full_name := none }]).2.2.2 (by decide) 7

/-! ### C2: public and privileged reads of the catalog tables -/

lemma is_admin_or_staff_true_of_has_role (db : DB) (uid : Option Nat) (r : UserRole)
    (h : has_role db uid r = true) : is_admin_or_staff db uid = true := by
  simp only [has_role, List.any_eq_true, Bool.and_eq_true] at h
  obtain ⟨row, hmem, huid, _⟩ := h
  simp only [is_admin_or_staff, List.any_eq_true, Bool.and_eq_true]
  refine ⟨row, hmem, huid, ?_⟩
  cases hr : row.role <;> simp

/-- C2: an unauthenticated caller satisfies neither role predicate; a
role-less caller's read of `menu_categories` returns exactly the rows
with `is_active`, and of `menu_items` exactly the rows with
`is_active AND is_available` (so a row with `is_available = false` is
excluded regardless of `is_active`); a caller holding the admin or the
staff role reads every row of both tables. -/
theorem menu_catalog_read_policy (db : DB) (uid : Option Nat) :
    is_admin_or_staff db none = false ∧
    (is_admin_or_staff db uid = false →
      selectMenuCategories db uid = db.menu_categories.filter (fun c => c.is_active) ∧
      selectMenuItems db uid =
        db.menu_items.filter (fun it => it.is_active && it.is_available) ∧
      ∀ it ∈ db.menu_items, it.is_available = false → it ∉ selectMenuItems db uid) ∧
    (has_role db uid UserRole.admin = true ∨ has_role db uid UserRole.staff = true →
      selectMenuCategories db uid = db.menu_categories ∧
      selectMenuItems db uid = db.menu_items) := by
  refine ⟨?_, ?_, ?_⟩
  · simp [is_admin_or_staff]
  · intro h
    refine ⟨?_, ?_, ?_⟩
    · exact List.filter_congr (fun c _ => by simp [categorySelectPolicy, h])
    · exact List.filter_congr (fun it _ => by simp [itemSelectPolicy, h])
    · intro it hmem hunavail hsel
      have := (List.mem_filter.mp hsel).2
      simp [itemSelectPolicy, h, hunavail] at this
  · intro h
    have hpriv : is_admin_or_staff db uid = true := by
      rcases h with h | h
      · exact is_admin_or_staff_true_of_has_role db uid UserRole.admin h
      · exact is_admin_or_staff_true_of_has_role db uid UserRole.staff h
    constructor
    · exact List.filter_eq_self.mpr (fun c _ => by simp [categorySelectPolicy, hpriv])
    · exact List.filter_eq_self.mpr (fun it _ => by simp [itemSelectPolicy, hpriv])

/-- C2 witness: a concrete database with one staff member, an inactive
category, and an item that is active but unavailable; the theorem is
applied for the unauthenticated caller and for the staff caller. -/
theorem menu_catalog_read_policy_witness :
    (selectMenuCategories
        { dbEmpty with
          user_roles := [{ user_id := 5, role := UserRole.staff }],
          menu_categories :=
            [{ id := 1, name := "Mains", display_order := 1, is_active := true },
             { id := 2, name := "Old", display_order := 2, is_active := false }],
          menu_items :=
            [{ id := 10, category_id := some 1, name := "Tagine", price := 1200,
               is_active := true, is_available := false }] } none =
      [{ id := 1, name := "Mains", display_order := 1, is_active := true }]) ∧
    (selectMenuItems
        { dbEmpty with
          user_roles := [{ user_id := 5, role := UserRole.staff }],
          menu_categories :=
            [{ id := 1, name := "Mains", display_order := 1, is_active := true },
             { id := 2, name := "Old", display_order := 2, is_active := false }],
          menu_items :=
            [{ id := 10, category_id := some 1, name := "Tagine", price := 1200,
               is_active := true, is_available := false }] } (some 5) =
      [{ id := 10, category_id := some 1, name := "Tagine", price := 1200,
         is_active := true, is_available := false }]) := by
  constructor
  · have h := ((menu_catalog_read_policy
      { dbEmpty with
        user_roles := [{ user_id := 5, role := UserRole.staff }],
        menu_categories :=
          [{ id := 1, name := "Mains", display_order := 1, is_active := true },
           { id := 2, name := "Old", display_order := 2, is_active := false }],
        menu_items :=
          [{ id := 10, category_id := some 1, name := "Tagine", price := 1200,
             is_active := true, is_available := false }] } none).2.1 (by decide)).1
    rw [h]
    decide
  · have h := ((menu_catalog_read_policy
      { dbEmpty with
        user_roles := [{ user_id := 5, role := UserRole.staff }],
        menu_categories :=
          [{ id := 1, name := "Mains", display_order := 1, is_active := true },
           { id := 2, name := "Old", display_order := 2, is_active := false }],
        menu_items :=
          [{ id := 10, category_id := some 1, name := "Tagine", price := 1200,
             is_active := true, is_available := false }] } (some 5)).2.2
        (Or.inr (by decide))).2
    rw [h]

/-! ### C3: unit_price is a snapshot, untouched by later price updates -/

/-- C3: any sequence of `menu_items` price updates leaves the
`order_items` table, and in particular every row's `unit_price`,
exactly as it was. -/
theorem order_items_unit_price_frame (db : DB) (ups : List (Nat × Int)) :
    (applyPriceUpdates db ups).order_items = db.order_items ∧
    (applyPriceUpdates db ups).order_items.map (fun oi => oi.unit_price) =
      db.order_items.map (fun oi => oi.unit_price) := by
  have h : (applyPriceUpdates db ups).order_items = db.order_items := by
    induction ups generalizing db with
    | nil => rfl
    | cons u rest ih => exact ih (updateMenuItemPrice db u.1 u.2)
  exact ⟨h, by rw [h]⟩

/-! ### C4: orders and order_items are staff/admin only -/

/-- C4: a caller holding neither role reads nothing from `orders` or
`order_items` and none of its writes change either table (inserts are
rejected, updates and deletes affect no row); a caller holding the admin
or the staff role may perform every operation on both tables. -/
theorem orders_access_control (db : DB) (uid : Option Nat) (o : Order) (oi : OrderItem)
    (po : Order → Bool) (fo : Order → Order)
    (pq : OrderItem → Bool) (fq : OrderItem → OrderItem) :
    (is_admin_or_staff db uid = false →
      selectOrders db uid = [] ∧
      selectOrderItems db uid = [] ∧
      insertOrder db uid o = Except.error () ∧
      insertOrderItem db uid oi = Except.error () ∧
      updateOrders db uid po fo = db ∧
      deleteOrders db uid po = db ∧
      updateOrderItems db uid pq fq = db ∧
      deleteOrderItems db uid pq = db) ∧
    (has_role db uid UserRole.admin = true ∨ has_role db uid UserRole.staff = true →
      selectOrders db uid = db.orders ∧
      selectOrderItems db uid = db.order_items ∧
      insertOrder db uid o = Except.ok { db with orders := db.orders ++ [o] } ∧
      insertOrderItem db uid oi =
        Except.ok { db with order_items := db.order_items ++ [oi] } ∧
      updateOrders db uid po fo =
        { db with orders := db.orders.map (fun x => if po x then fo x else x) } ∧
      deleteOrders db uid po =
        { db with orders := db.orders.filter (fun x => !(po x)) } ∧
      updateOrderItems db uid pq fq =
        { db with order_items := db.order_items.map (fun x => if pq x then fq x else x) } ∧
      deleteOrderItems db uid pq =
        { db with order_items := db.order_items.filter (fun x => !(pq x)) }) := by
  constructor
  · intro h
    refine ⟨?_, ?_, ?_, ?_, ?_, ?_, ?_, ?_⟩
    · simp [selectOrders, h]
    · simp [selectOrderItems, h]
    · simp [insertOrder, h]
    · simp [insertOrderItem, h]
    · simp [updateOrders, h]
    · simp [deleteOrders, h]
    · simp [updateOrderItems, h]
    · simp [deleteOrderItems, h]
  · intro h
    have hpriv : is_admin_or_staff db uid = true := by
      rcases h with h | h
      · exact is_admin_or_staff_true_of_has_role db uid UserRole.admin h
      · exact is_admin_or_staff_true_of_has_role db uid UserRole.staff h
    refine ⟨?_, ?_, ?_, ?_, ?_, ?_, ?_, ?_⟩
    · simp [selectOrders, hpriv]
    · simp [selectOrderItems, hpriv]
    · simp [insertOrder, hpriv]
    · simp [insertOrderItem, hpriv]
    · simp [updateOrders, hpriv]
    · simp [deleteOrders, hpriv]
    · simp [updateOrderItems, hpriv]
    · simp [deleteOrderItems, hpriv]

/-- C4 witness: a caller with no role row sees no orders and its delete
changes nothing; a staff caller sees the order table. -/
theorem orders_access_control_witness :
    selectOrders
      { dbEmpty with
        user_roles := [{ user_id := 5, role := UserRole.staff }],
        orders := [{ id := 100, total_amount := 1200, status := OrderStatus.received }] }
      (some 9) = [] ∧
    deleteOrders
      { dbEmpty with
        user_roles := [{ user_id := 5, role := UserRole.staff }],
        orders := [{ id := 100, total_amount := 1200, status := OrderStatus.received }] }
      (some 9) (fun _ => true) =
      { dbEmpty with
        user_roles := [{ user_id := 5, role := UserRole.staff }],
        orders := [{ id := 100, total_amount := 1200, status := OrderStatus.received }] } ∧
    selectOrders
      { dbEmpty with
        user_roles := [{ user_id := 5, role := UserRole.staff }],
        orders := [{ id := 100, total_amount := 1200, status := OrderStatus.received }] }
      (some 5) =
      [{ id := 100, total_amount := 1200, status := OrderStatus.received }] := by
  refine ⟨?_, ?_, ?_⟩
  · exact ((orders_access_control _ (some 9)
      { id := 0, total_amount := 0, status := OrderStatus.received }
      { id := 0, order_id := none, menu_item_id := none, quantity := 0, unit_price := 0 }
      (fun _ => true) id (fun _ => true) id).1 (by decide)).1
  · exact ((orders_access_control _ (some 9)
      { id := 0, total_amount := 0, status := OrderStatus.received }
      { id := 0, order_id := none, menu_item_id := none, quantity := 0, unit_price := 0 }
      (fun _ => true) id (fun _ => true) id).1 (by decide)).2.2.2.2.2.1
  · exact ((orders_access_control _ (some 5)
      { id := 0, total_amount := 0, status := OrderStatus.received }
      { id := 0, order_id := none, menu_item_id := none, quantity := 0, unit_price := 0 }
      (fun _ => true) id (fun _ => true) id).2 (Or.inr (by decide))).1

/-! ### C5: user_roles writes are admin-only, own rows readable -/

/-- C5: a caller without the admin role cannot insert into `user_roles`
and its updates and deletes (over any row predicate, so in particular
over another identity's row) leave the table unchanged, while every row
carrying its own identity is visible to its select; an admin caller may
insert, update, delete and read every row. -/
theorem user_roles_policy (db : DB) (uid : Option Nat) (row : RoleRow)
    (pred : RoleRow → Bool) (f : RoleRow → RoleRow) :
    (has_role db uid UserRole.admin = false →
      insertUserRole db uid row = Except.error () ∧
      updateUserRoles db uid pred f = db ∧
      deleteUserRoles db uid pred = db ∧
      ∀ r ∈ db.user_roles, uid = some r.user_id → r ∈ selectUserRoles db uid) ∧
    (has_role db uid UserRole.admin = true →
      insertUserRole db uid row =
        Except.ok { db with user_roles := db.user_roles ++ [row] } ∧
      updateUserRoles db uid pred f =
        { db with user_roles := db.user_roles.map (fun r => if pred r then f r else r) } ∧
      deleteUserRoles db uid pred =
        { db with user_roles := db.user_roles.filter (fun r => !(pred r)) } ∧
      selectUserRoles db uid = db.user_roles) := by
  constructor
  · intro h
    refine ⟨?_, ?_, ?_, ?_⟩
    · simp [insertUserRole, h]
    · simp [updateUserRoles, h]
    · simp [deleteUserRoles, h]
    · intro r hmem huid
      exact List.mem_filter.mpr ⟨hmem, by simp [userRoleSelectPolicy, huid]⟩
  · intro h
    refine ⟨?_, ?_, ?_, ?_⟩
    · simp [insertUserRole, h]
    · simp [updateUserRoles, h]
    · simp [deleteUserRoles, h]
    · exact List.filter_eq_self.mpr (fun r _ => by simp [userRoleSelectPolicy, h])

/-- C5 witness: a staff (non-admin) caller's attempt to rewrite another
identity's role changes nothing, and its own role row stays visible; the
admin caller deletes any row. -/
theorem user_roles_policy_witness :
    updateUserRoles
      { dbEmpty with
        user_roles := [{ user_id := 1, role := UserRole.admin },
                       { user_id := 5, role := UserRole.staff }] }
      (some 5) (fun r => r.user_id == 1) (fun r => { r with role := UserRole.staff }) =
      { dbEmpty with
        user_roles := [{ user_id := 1, role := UserRole.admin },
                       { user_id := 5, role := UserRole.staff }] } ∧
    { user_id := 5, role := UserRole.staff } ∈ selectUserRoles
      { dbEmpty with
        user_roles := [{ user_id := 1, role := UserRole.admin },
                       { user_id := 5, role := UserRole.staff }] } (some 5) ∧
    deleteUserRoles
      { dbEmpty with
        user_roles := [{ user_id := 1, role := UserRole.admin },
                       { user_id := 5, role := UserRole.staff }] }
      (some 1) (fun r => r.user_id == 5) =
      { dbEmpty with
        user_roles := [{ user_id := 1, role := UserRole.admin }] } := by
  refine ⟨?_, ?_, ?_⟩
  · exact ((user_roles_policy _ (some 5)
      { user_id := 0, role := UserRole.staff }
      (fun r => r.user_id == 1) (fun r => { r with role := UserRole.staff })).1
      (by decide)).2.1
  · exact ((user_roles_policy _ (some 5)
      { user_id := 0, role := UserRole.staff }
      (fun r => r.user_id == 1) (fun r => { r with role := UserRole.staff })).1
      (by decide)).2.2.2 { user_id := 5, role := UserRole.staff } (by decide) rfl
  · have h := ((user_roles_policy
      { dbEmpty with
        user_roles := [{ user_id := 1, role := UserRole.admin },
                       { user_id := 5, role := UserRole.staff }] }
      (some 1) { user_id := 0, role := UserRole.staff }
      (fun r => r.user_id == 5) (fun r => r)).2 (by decide)).2.2.1
    rw [h]
    decide

/-! ### C6: cascade deletes

The claim says no rows other than the directly referencing ones are
removed; but `order_items.menu_item_id` also carries ON DELETE CASCADE,
so deleting a category removes, through its menu items, the order items
that reference them. -/

/-- C6 counterexample: one category, one item in it, one order with one
line item for that item. Deleting the category removes the `order_items`
row as well, so the claim's "no other rows are removed by either
cascade" fails. -/
theorem category_cascade_removes_order_items_counterexample :
    (deleteMenuCategory
      { dbEmpty with
        menu_categories :=
          [{ id := 1, name := "Mains", display_order := 1, is_active := true }],
        menu_items :=
          [{ id := 10, category_id := some 1, name := "Tagine", price := 1200,
             is_active := true, is_available := true }],
        orders := [{ id := 100, total_amount := 1200, status := OrderStatus.received }],
        order_items :=
          [{ id := 1000, order_id := some 100, menu_item_id := some 10,
             quantity := 1, unit_price := 1200 }] } 1).order_items = [] ∧
    ({ dbEmpty with
        menu_categories :=
          [{ id := 1, name := "Mains", display_order := 1, is_active := true }],
        menu_items :=
          [{ id := 10, category_id := some 1, name := "Tagine", price := 1200,
             is_active := true, is_available := true }],
        orders := [{ id := 100, total_amount := 1200, status := OrderStatus.received }],
        order_items :=
          [{ id := 1000, order_id := some 100, menu_item_id := some 10,
             quantity := 1, unit_price := 1200 }] } : DB).order_items ≠ [] := by
  constructor
  · decide
  · decide

/-- C6 amended: deleting a category removes exactly its own row, the
menu items referencing it, and — through the `order_items.menu_item_id`
cascade — the order items referencing those menu items, leaving every
other table untouched; deleting an order removes exactly its own row and
the order items referencing it, leaving every other table untouched. -/
theorem cascade_delete_characterization (db : DB) (cid oid : Nat) :
    (∀ c : MenuCategory, c ∈ (deleteMenuCategory db cid).menu_categories ↔
      c ∈ db.menu_categories ∧ c.id ≠ cid) ∧
    (∀ it : MenuItem, it ∈ (deleteMenuCategory db cid).menu_items ↔
      it ∈ db.menu_items ∧ it.category_id ≠ some cid) ∧
    (∀ oi : OrderItem, oi ∈ (deleteMenuCategory db cid).order_items ↔
      oi ∈ db.order_items ∧
        ¬∃ it ∈ db.menu_items, it.category_id = some cid ∧ oi.menu_item_id = some it.id) ∧
    (deleteMenuCategory db cid).orders = db.orders ∧
    (deleteMenuCategory db cid).profiles = db.profiles ∧
    (deleteMenuCategory db cid).user_roles = db.user_roles ∧
    (deleteMenuCategory db cid).auth_users = db.auth_users ∧
    (∀ o : Order, o ∈ (deleteOrderRow db oid).orders ↔
      o ∈ db.orders ∧ o.id ≠ oid) ∧
    (∀ oi : OrderItem, oi ∈ (deleteOrderRow db oid).order_items ↔
      oi ∈ db.order_items ∧ oi.order_id ≠ some oid) ∧
    (deleteOrderRow db oid).menu_categories = db.menu_categories ∧
    (deleteOrderRow db oid).menu_items = db.menu_items ∧
    (deleteOrderRow db oid).profiles = db.profiles ∧
    (deleteOrderRow db oid).user_roles = db.user_roles ∧
    (deleteOrderRow db oid).auth_users = db.auth_users := by
  refine ⟨?_, ?_, ?_, rfl, rfl, rfl, rfl, ?_, ?_, rfl, rfl, rfl, rfl, rfl⟩
  · intro c
    simp [deleteMenuCategory, List.mem_filter]
  · intro it
    simp [deleteMenuCategory, List.mem_filter]
  · intro oi
    simp [deleteMenuCategory, List.mem_filter, List.any_eq_true]
  · intro o
    simp [deleteOrderRow, List.mem_filter]
  · intro oi
    simp [deleteOrderRow, List.mem_filter]

/-! ### C7: updated_at refresh trigger -/

/-- C7: every table whose CREATE TABLE declares an `updated_at` column
has the BEFORE UPDATE trigger installed, and an update that runs through
`update_updated_at_column` leaves the row with `updated_at` equal to the
time of the update while the payload receives exactly the update. -/
theorem updated_at_trigger_coverage :
    (∀ t : TableName, hasUpdatedAtColumn t = true → hasUpdatedAtTrigger t = true) ∧
    (∀ (α : Type) (now : Nat) (f : α → α) (row : TimedRow α),
      (updateRowWithTrigger now f row).updated_at = now ∧
      (updateRowWithTrigger now f row).payload = f row.payload) := by
  constructor
  · intro t ht
    cases t <;> simp_all [hasUpdatedAtColumn, hasUpdatedAtTrigger]
  · intro α now f row
    exact ⟨rfl, rfl⟩

/-- C7 witness: the coverage fact applied at `menu_items`, and the
trigger semantics evaluated at a concrete row. -/
theorem updated_at_trigger_coverage_witness :
    hasUpdatedAtTrigger TableName.menu_items = true ∧
    (updateRowWithTrigger 42 (fun n => n + 1)
      { payload := (5 : Nat), updated_at := 7 }).updated_at = 42 := by
  constructor
  · exact updated_at_trigger_coverage.1 TableName.menu_items (by decide)
  · exact (updated_at_trigger_coverage.2 Nat 42 (fun n => n + 1)
      { payload := 5, updated_at := 7 }).1

/-! ### C8: failed calls toast once, are not retried, no compensation -/

/-- C8: for each presentation-layer handler: a failed call produces
exactly one destructive toast; the failing operation is issued exactly
once (never retried) and nothing further is issued after the failure is
observed; and when a later call of a multi-call sequence fails, the
effects of the earlier successful calls remain on the server. -/
theorem handler_error_reporting (fd : FormData) (editing : Option Nat)
    (newId itemId : Nat) (itemName : String) (itemAvailable : Bool)
    (itemsErr catsErr : Option String) (s : ServerState) :
    (errorToastCount (fetchMenuData itemsErr catsErr s).toasts =
        (if itemsErr.isSome || catsErr.isSome then 1 else 0) ∧
      (fetchMenuData itemsErr catsErr s).server = s) ∧
    ((handleSubmit fd editing newId none itemsErr catsErr s).calls.count
        DataCall.insertMenuItem +
      (handleSubmit fd editing newId none itemsErr catsErr s).calls.count
        DataCall.updateMenuItem = 1) ∧
    (∀ e : String,
      handleSubmit fd editing newId (some e) itemsErr catsErr s =
        { calls := [match editing with
            | some _ => DataCall.updateMenuItem
            | none => DataCall.insertMenuItem],
          toasts := [Toast.error e], server := s }) ∧
    ((handleSubmit fd editing newId none itemsErr catsErr s).server =
        (match editing with
          | some id => applyUpdate s id (buildItemData fd)
          | none => applyInsert s newId (buildItemData fd)) ∧
      errorToastCount (handleSubmit fd editing newId none itemsErr catsErr s).toasts =
        (if itemsErr.isSome || catsErr.isSome then 1 else 0)) ∧
    (∀ e : String,
      handleDelete true itemId (some e) itemsErr catsErr s =
        { calls := [DataCall.deleteMenuItemCall],
          toasts := [Toast.error "Failed to delete menu item"], server := s }) ∧
    ((handleDelete true itemId none itemsErr catsErr s).server = applyDelete s itemId ∧
      errorToastCount (handleDelete true itemId none itemsErr catsErr s).toasts =
        (if itemsErr.isSome || catsErr.isSome then 1 else 0) ∧
      (handleDelete true itemId none itemsErr catsErr s).calls.count
        DataCall.deleteMenuItemCall = 1) ∧
    (∀ e : String,
      toggleAvailability itemId itemName itemAvailable (some e) itemsErr catsErr s =
        { calls := [DataCall.updateMenuItem],
          toasts := [Toast.error "Failed to update item availability"], server := s }) ∧
    ((toggleAvailability itemId itemName itemAvailable none itemsErr catsErr s).server =
        applyToggleAvailability s itemId (!itemAvailable) ∧
      errorToastCount
        (toggleAvailability itemId itemName itemAvailable none itemsErr catsErr s).toasts =
        (if itemsErr.isSome || catsErr.isSome then 1 else 0)) := by
  refine ⟨⟨?_, rfl⟩, ?_, ?_, ⟨?_, ?_⟩, ?_, ⟨?_, ?_, ?_⟩, ?_, ⟨?_, ?_⟩⟩
  · cases itemsErr <;> cases catsErr <;>
      simp [fetchMenuData, errorToastCount, Toast.isError]
  · cases editing <;>
      simp [handleSubmit, fetchMenuData, List.count_cons, List.count_nil]
  · intro e
    cases editing <;> rfl
  · cases editing <;> rfl
  · cases itemsErr <;> cases catsErr <;> cases editing <;>
      simp [handleSubmit, fetchMenuData, errorToastCount, Toast.isError]
  · intro e
    rfl
  · rfl
  · cases itemsErr <;> cases catsErr <;>
      simp [handleDelete, fetchMenuData, errorToastCount, Toast.isError]
  · simp [handleDelete, fetchMenuData, List.count_cons, List.count_nil]
  · intro e
    rfl
  · rfl
  · cases itemsErr <;> cases catsErr <;>
      simp [toggleAvailability, fetchMenuData, errorToastCount, Toast.isError]

/-- C8 witness: concrete failure scenarios evaluated through the
theorem: a failed update toasts once and leaves the server as it was; a
successful delete followed by a failed refetch keeps the delete's effect
and toasts the fetch failure once. -/
theorem handler_error_reporting_witness :
    handleSubmit
      { name := "Tagine", description := "", price := "12", image_url := "",
        category_id := "", is_active := true, is_available := true, allergens := "" }
      (some 10) 99 (some "boom") none none
      { items := [(10, { name := "Old", description := "", price_input := "9",
                         image_url := none, category_id := none, is_active := true,
                         is_available := true, allergens := none })] } =
      { calls := [DataCall.updateMenuItem], toasts := [Toast.error "boom"],
        server := { items := [(10, { name := "Old", description := "", price_input := "9",
                                     image_url := none, category_id := none,
                                     is_active := true, is_available := true,
                                     allergens := none })] } } ∧
    (handleDelete true 10 none (some "net") none
      { items := [(10, { name := "Old", description := "", price_input := "9",
                         image_url := none, category_id := none, is_active := true,
                         is_available := true, allergens := none })] }).server =
      { items := [] } ∧
    errorToastCount (handleDelete true 10 none (some "net") none
      { items := [(10, { name := "Old", description := "", price_input := "9",
                         image_url := none, category_id := none, is_active := true,
                         is_available := true, allergens := none })] }).toasts = 1 := by
  refine ⟨?_, ?_, ?_⟩
  · exact (handler_error_reporting
      { name := "Tagine", description := "", price := "12", image_url := "",
        category_id := "", is_active := true, is_available := true, allergens := "" }
      (some 10) 99 10 "x" true none none
      { items := [(10, { name := "Old", description := "", price_input := "9",
                         image_url := none, category_id := none, is_active := true,
                         is_available := true, allergens := none })] }).2.2.1 "boom"
  · have h := (handler_error_reporting
      { name := "Tagine", description := "", price := "12", image_url := "",
        category_id := "", is_active := true, is_available := true, allergens := "" }
      (some 10) 99 10 "x" true (some "net") none
      { items := [(10, { name := "Old", description := "", price_input := "9",
                         image_url := none, category_id := none, is_active := true,
                         is_available := true, allergens := none })] }).2.2.2.2.2.1.1
    rw [h]
    decide
  · exact (handler_error_reporting
      { name := "Tagine", description := "", price := "12", image_url := "",
        category_id := "", is_active := true, is_available := true, allergens := "" }
      (some 10) 99 10 "x" true (some "net") none
      { items := [(10, { name := "Old", description := "", price_input := "9",
                         image_url := none, category_id := none, is_active := true,
                         is_available := true, allergens := none })] }).2.2.2.2.2.1.2.1

/-! ### C10: form payload null mapping -/

/-- C10: the payload `handleSubmit` builds maps the empty `image_url`
and `category_id` strings to null and keeps non-empty ones; an empty
allergens string becomes null and a non-empty one the comma-split list
of trimmed entries; the update branch and the insert branch send the
identical payload. -/
theorem submit_payload_null_mapping (fd : FormData) :
    (fd.image_url = "" → (buildItemData fd).image_url = none) ∧
    (fd.image_url ≠ "" → (buildItemData fd).image_url = some fd.image_url) ∧
    (fd.category_id = "" → (buildItemData fd).category_id = none) ∧
    (fd.category_id ≠ "" → (buildItemData fd).category_id = some fd.category_id) ∧
    (fd.allergens = "" → (buildItemData fd).allergens = none) ∧
    (fd.allergens ≠ "" → (buildItemData fd).allergens =
      some ((jsSplitComma fd.allergens).map jsTrim)) ∧
    updateBranchPayload fd = insertBranchPayload fd := by
  refine ⟨?_, ?_, ?_, ?_, ?_, ?_, rfl⟩
  · intro h; simp [buildItemData, jsOrNull, h]
  · intro h; simp [buildItemData, jsOrNull, h]
  · intro h; simp [buildItemData, jsOrNull, h]
  · intro h; simp [buildItemData, jsOrNull, h]
  · intro h; simp [buildItemData, h]
  · intro h; simp [buildItemData, h]

/-- C10 witness: a concrete form with empty image URL, non-empty
category, and a two-entry allergens string with spaces. -/
theorem submit_payload_null_mapping_witness :
    (buildItemData
      { name := "Tagine", description := "", price := "12.50", image_url := "",
        category_id := "c1", is_active := true, is_available := true,
        allergens := "nuts, dairy" }).image_url = none ∧
    (buildItemData
      { name := "Tagine", description := "", price := "12.50", image_url := "",
        category_id := "c1", is_active := true, is_available := true,
        allergens := "nuts, dairy" }).category_id = some "c1" ∧
    (buildItemData
      { name := "Tagine", description := "", price := "12.50", image_url := "",
        category_id := "c1", is_active := true, is_available := true,
        allergens := "nuts, dairy" }).allergens = some ["nuts", "dairy"] := by
  refine ⟨?_, ?_, ?_⟩
  · exact (submit_payload_null_mapping
      { name := "Tagine", description := "", price := "12.50", image_url := "",
        category_id := "c1", is_active := true, is_available := true,
        allergens := "nuts, dairy" }).1 rfl
  · exact (submit_payload_null_mapping
      { name := "Tagine", description := "", price := "12.50", image_url := "",
        category_id := "c1", is_active := true, is_available := true,
        allergens := "nuts, dairy" }).2.2.2.1 (by decide)
  · have h := (submit_payload_null_mapping
      { name := "Tagine", description := "", price := "12.50", image_url := "",
        category_id := "c1", is_active := true, is_available := true,
        allergens := "nuts, dairy" }).2.2.2.2.2.1 (by decide)
    rw [h]
    decide

/-! ### C9: the dashboard popular-dishes list -/

lemma lookupCount_nil (n : String) : lookupCount [] n = none := rfl

lemma lookupCount_bump_same (m : String) (q : Int) : ∀ acc : List (String × Int),
    lookupCount (bump acc m q) m = some ((lookupCount acc m).getD 0 + q) := by
  intro acc
  induction acc with
  | nil => simp [bump, lookupCount]
  | cons p rest ih =>
      by_cases hp : (p.1 == m) = true
      · simp [bump, lookupCount, hp]
      · have hp2 : (p.1 == m) = false := by simpa using hp
        rw [bump, if_neg hp]
        simp only [lookupCount, List.find?_cons, hp2]
        exact ih

lemma lookupCount_bump_ne (m n : String) (q : Int) (hnm : n ≠ m) :
    ∀ acc : List (String × Int), lookupCount (bump acc m q) n = lookupCount acc n := by
  intro acc
  induction acc with
  | nil =>
      have h : (m == n) = false := by
        simp [Ne.symm hnm]
      simp [bump, lookupCount, h]
  | cons p rest ih =>
      by_cases hp : (p.1 == m) = true
      · have hpn : (p.1 == n) = false := by
          have : p.1 = m := by simpa using hp
          simp [this, Ne.symm hnm]
        simp [bump, lookupCount, hp, hpn, List.find?_cons_of_neg]
      · by_cases hpn : (p.1 == n) = true
        · rw [bump, if_neg hp]
          simp only [lookupCount, List.find?_cons, hpn]
        · have hpn2 : (p.1 == n) = false := by simpa using hpn
          rw [bump, if_neg hp]
          simp only [lookupCount, List.find?_cons, hpn2]
          exact ih

lemma mem_keys_bump (m x : String) (q : Int) : ∀ acc : List (String × Int),
    x ∈ (bump acc m q).map Prod.fst → x ∈ acc.map Prod.fst ∨ x = m := by
  intro acc
  induction acc with
  | nil => intro h; simp [bump] at h; exact Or.inr h
  | cons p rest ih =>
      intro h
      by_cases hp : (p.1 == m) = true
      · simp only [bump, hp, if_true, List.map_cons, List.mem_cons] at h
        rcases h with h | h
        · exact Or.inl (by simp [h])
        · exact Or.inl (by simp [h])
      · have hp2 : (p.1 == m) = false := by
          cases hb : (p.1 == m)
          · rfl
          · exact absurd hb hp
        simp only [bump, hp2, Bool.false_eq_true, if_false, List.map_cons,
          List.mem_cons] at h
        rcases h with h | h
        · exact Or.inl (by simp [h])
        · rcases ih h with h2 | h2
          · exact Or.inl (by simp [h2])
          · exact Or.inr h2

lemma keysNodup_bump (m : String) (q : Int) : ∀ acc : List (String × Int),
    keysNodup acc → keysNodup (bump acc m q) := by
  intro acc
  induction acc with
  | nil => intro _; simp [bump, keysNodup]
  | cons p rest ih =>
      intro h
      rw [keysNodup, List.map_cons, List.nodup_cons] at h
      by_cases hp : (p.1 == m) = true
      · simpa [bump, hp, keysNodup, List.nodup_cons] using h
      · have hp2 : (p.1 == m) = false := by
          cases hb : (p.1 == m)
          · rfl
          · exact absurd hb hp
        have hne : p.1 ≠ m := by simpa using hp2
        rw [bump, hp2]
        simp only [Bool.false_eq_true, if_false, keysNodup, List.map_cons,
          List.nodup_cons]
        refine ⟨?_, ih h.2⟩
        intro hmem
        rcases mem_keys_bump m p.1 q rest hmem with h2 | h2
        · exact h.1 h2
        · exact hne h2

lemma hasName_cons_none (it : TodayOrderItem) (rest : List TodayOrderItem)
    (n : String) (h : it.menu_item_name = none) :
    hasName (it :: rest) n = hasName rest n := by
  simp [hasName, h]

lemma totalFor_cons_none (it : TodayOrderItem) (rest : List TodayOrderItem)
    (n : String) (h : it.menu_item_name = none) :
    totalFor (it :: rest) n = totalFor rest n := by
  simp [totalFor, h]

lemma lookupCount_dishFold (items : List TodayOrderItem) :
    ∀ (acc : List (String × Int)) (n : String),
      lookupCount (items.foldl dishStep acc) n =
        if (lookupCount acc n).isSome || hasName items n then
          some ((lookupCount acc n).getD 0 + totalFor items n)
        else none := by
  induction items with
  | nil =>
      intro acc n
      cases h : lookupCount acc n with
      | none => simp [hasName, totalFor, h]
      | some v => simp [hasName, totalFor, h]
  | cons it rest ih =>
      intro acc n
      cases hname : it.menu_item_name with
      | none =>
          have hstep : dishStep acc it = acc := by simp [dishStep, hname]
          simp only [List.foldl_cons, hstep]
          rw [ih acc n, hasName_cons_none it rest n hname,
            totalFor_cons_none it rest n hname]
      | some m =>
          have hstep : dishStep acc it = bump acc m it.quantity := by
            simp [dishStep, hname]
          simp only [List.foldl_cons, hstep]
          rw [ih (bump acc m it.quantity) n]
          by_cases hnm : n = m
          · subst hnm
            rw [lookupCount_bump_same]
            have h1 : hasName (it :: rest) n = true := by simp [hasName, hname]
            have h2 : totalFor (it :: rest) n = it.quantity + totalFor rest n := by
              simp [totalFor, hname]
            rw [h1, h2]
            simp [Int.add_assoc]
          · rw [lookupCount_bump_ne m n it.quantity hnm]
            have h1 : hasName (it :: rest) n = hasName rest n := by
              simp [hasName, hname, Ne.symm hnm]
            have h2 : totalFor (it :: rest) n = totalFor rest n := by
              simp [totalFor, hname, Ne.symm hnm]
            rw [h1, h2]

lemma lookupCount_dishCounts (items : List TodayOrderItem) (n : String) :
    lookupCount (dishCounts items) n =
      if hasName items n then some (totalFor items n) else none := by
  have h := lookupCount_dishFold items [] n
  simpa [dishCounts, lookupCount_nil] using h

lemma keysNodup_dishFold (items : List TodayOrderItem) :
    ∀ acc : List (String × Int), keysNodup acc →
      keysNodup (items.foldl dishStep acc) := by
  induction items with
  | nil => intro acc h; exact h
  | cons it rest ih =>
      intro acc h
      cases hname : it.menu_item_name with
      | none =>
          have hstep : dishStep acc it = acc := by simp [dishStep, hname]
          simp only [List.foldl_cons, hstep]
          exact ih acc h
      | some m =>
          have hstep : dishStep acc it = bump acc m it.quantity := by
            simp [dishStep, hname]
          simp only [List.foldl_cons, hstep]
          exact ih _ (keysNodup_bump m it.quantity acc h)

lemma lookupCount_of_mem : ∀ acc : List (String × Int), keysNodup acc →
    ∀ p : String × Int, p ∈ acc → lookupCount acc p.1 = some p.2 := by
  intro acc
  induction acc with
  | nil => intro _ p hp; simp at hp
  | cons q rest ih =>
      intro hnodup p hp
      rw [keysNodup, List.map_cons, List.nodup_cons] at hnodup
      rcases List.mem_cons.mp hp with h | h
      · subst h
        simp [lookupCount]
      · have hq : (q.1 == p.1) = false := by
          simp only [beq_eq_false_iff_ne, ne_eq]
          intro he
          exact hnodup.1 (by rw [he]; exact List.mem_map_of_mem Prod.fst h)
        simp only [lookupCount, List.find?_cons, hq]
        exact ih hnodup.2 p h

/-- C9: the popular-dishes list has at most 5 entries, is sorted in
non-increasing order of aggregated quantity, and each of its entries
pairs a dish name actually referenced by today's line items with the
total quantity of the line items bearing that name; line items whose
menu-item join yields no name contribute nothing. -/
theorem popular_dishes_spec (items : List TodayOrderItem) :
    (popularDishes items).length ≤ 5 ∧
    List.Sorted countGE (popularDishes items) ∧
    ∀ p ∈ popularDishes items,
      hasName items p.1 = true ∧ p.2 = totalFor items p.1 := by
  refine ⟨?_, ?_, ?_⟩
  · exact List.length_take_le 5 (List.insertionSort countGE (dishCounts items))
  · exact List.Pairwise.sublist (List.take_sublist 5 _)
      (List.sorted_insertionSort countGE (dishCounts items))
  · intro p hp
    have h1 : p ∈ List.insertionSort countGE (dishCounts items) :=
      (List.take_sublist 5 _).subset hp
    have hmem : p ∈ dishCounts items := (List.mem_insertionSort countGE).mp h1
    have hnodup : keysNodup (dishCounts items) :=
      keysNodup_dishFold items [] (by simp [keysNodup])
    have hlook := lookupCount_of_mem (dishCounts items) hnodup p hmem
    rw [lookupCount_dishCounts] at hlook
    by_cases hn : hasName items p.1 = true
    · rw [if_pos hn] at hlook
      exact ⟨hn, (Option.some.inj hlook).symm⟩
    · rw [if_neg hn] at hlook
      exact absurd hlook (by simp)

/-- C9 witness: four concrete line items (one with no joined name, two
sharing the name "tagine"); the aggregated, sorted, truncated list is
evaluated and the per-entry part of the theorem is applied at the
top entry. -/
theorem popular_dishes_spec_witness :
    popularDishes
      [{ menu_item_name := some "tagine", quantity := 2 },
       { menu_item_name := none, quantity := 7 },
       { menu_item_name := some "mint tea", quantity := 1 },
       { menu_item_name := some "tagine", quantity := 3 }] =
      [("tagine", 5), ("mint tea", 1)] ∧
    hasName
      [{ menu_item_name := some "tagine", quantity := 2 },
       { menu_item_name := none, quantity := 7 },
       { menu_item_name := some "mint tea", quantity := 1 },
       { menu_item_name := some "tagine", quantity := 3 }] "tagine" = true ∧
    (5 : Int) = totalFor
      [{ menu_item_name := some "tagine", quantity := 2 },
       { menu_item_name := none, quantity := 7 },
       { menu_item_name := some "mint tea", quantity := 1 },
       { menu_item_name := some "tagine", quantity := 3 }] "tagine" := by
  refine ⟨by decide, ?_⟩
  have h := (popular_dishes_spec
    [{ menu_item_name := some "tagine", quantity := 2 },
     { menu_item_name := none, quantity := 7 },
     { menu_item_name := some "mint tea", quantity := 1 },
     { menu_item_name := some "tagine", quantity := 3 }]).2.2
    ("tagine", 5) (by decide)
  exact h

end DishDash
